import Mathlib

/-!
Shallow embedding of the xtractor-backend Express application
(`src/index.js`, second webhook variant; `src/unnamed/part_000`, first
variant).  HTTP handlers become total Lean functions over explicit
environments that model the request and the external providers
(Polar payments API, Clerk identity API); each handler result records
the response status together with the provider calls and metadata
updates performed, so that "no side effect" properties are statable.
-/

namespace Xtractor

/-- JavaScript string-valued object (e.g. Clerk `publicMetadata`,
Polar `customerMetadata`), as an association list; lookup takes the
first binding, and the update operations below keep keys unique. -/
abbrev Metadata := List (String × String)

/-- Key lookup in an association list, first binding wins
(models JavaScript property access, `none` = `undefined`). -/
def lookK {α : Type} : List (String × α) → String → Option α
  | [], _ => none
  | (k, v) :: rest, key => if key = k then some v else lookK rest key

/-- Removes every binding of a key (models the JavaScript `delete` operator). -/
def delKey {α : Type} (m : List (String × α)) (k : String) : List (String × α) :=
  m.filter (fun p => !(p.1 == k))

/-- Sets a key to a value, shadowing nothing (models a later key in a
JavaScript object literal overriding an earlier/spread one). -/
def objSet {α : Type} (m : List (String × α)) (k : String) (v : α) : List (String × α) :=
  (k, v) :: delKey m k

/-- JavaScript truthiness of an optional string: `undefined`/`null` and
the empty string are falsy. -/
def jsTruthyS : Option String → Bool
  | none => false
  | some s => !(s == "")

/-- JavaScript `a || b` where `a` is an optional string. -/
def jsOrS (o : Option String) (d : String) : String :=
  match o with
  | none => d
  | some s => if s = "" then d else s

/-! ## Webhook receiver -/

/-- Subscription payload of a webhook event (`event.data`). -/
structure SubscriptionData where
  id : String
  customerId : String
  checkoutId : Option String
deriving DecidableEq

/-- A validated webhook event (`validateEvent` result). -/
structure WebhookEvent where
  type : String
  data : SubscriptionData
deriving DecidableEq

/-- A Polar checkout session as read back by `polar.checkouts.get`. -/
structure Checkout where
  customerMetadata : Option Metadata
deriving DecidableEq

/-- Environment of one `POST /webhook` request: the outcome of signature
verification and oracles for the Polar and Clerk calls the handler may
make.  `verified = none` models `validateEvent` throwing
`WebhookVerificationError`; the `Fails` predicates model the
corresponding awaited call rejecting. -/
structure WebhookEnv where
  verified : Option WebhookEvent
  checkoutFails : String → Bool
  checkoutOf : String → Checkout
  getUserFails : String → Bool
  userMeta : String → Option Metadata
  updateFails : String → Bool

/-- Observable outcome of one `POST /webhook` request: response status and
body, the successful `updateUserMetadata` calls (user id, new
`publicMetadata`), and the checkout ids fetched from Polar. -/
structure WebhookResult where
  status : Nat
  body : String
  updates : List (String × Metadata)
  checkoutFetches : List String
deriving DecidableEq

/-- The `publicMetadata` object written by the `subscription.active` branch. -/
def activeMeta (sub : SubscriptionData) : Metadata :=
  [("subscriptionId", sub.id), ("customerId", sub.customerId),
   ("plan", "pro"), ("status", "active")]

/-- The merged `publicMetadata` object written by the `subscription.revoked`
branch: spread of the current metadata with four keys overridden, the
subscriptionId override using JavaScript `currentMetadata.subscriptionId
|| subscription.id`. -/
def revokedMeta (cur : Metadata) (sub : SubscriptionData) : Metadata :=
  objSet (objSet (objSet (objSet cur
    "subscriptionId" (jsOrS (lookK cur "subscriptionId") sub.id))
    "customerId" sub.customerId)
    "plan" "free")
    "status" "revoked"

/-- Optional-chaining lookup on an optional object
(`obj?.key` in JavaScript, e.g. `checkout.customerMetadata?.clerk_user_id`). -/
def lookOpt (m : Option Metadata) (k : String) : Option String :=
  m.bind (fun mm => lookK mm k)

/-- The `subscription.active` branch of the webhook handler (identical in
both source variants).  Any rejected awaited call propagates to the
handler catch and yields the 500 response. -/
def handleActive (env : WebhookEnv) (sub : SubscriptionData) : WebhookResult :=
  match sub.checkoutId with
  | none => ⟨202, "", [], []⟩
  | some cid =>
    if cid = "" then ⟨202, "", [], []⟩
    else if env.checkoutFails cid then ⟨500, "Internal Server Error", [], [cid]⟩
    else
      match lookOpt ((env.checkoutOf cid).customerMetadata) "clerk_user_id" with
      | none => ⟨202, "", [], [cid]⟩
      | some uid =>
        if uid = "" then ⟨202, "", [], [cid]⟩
        else if env.updateFails uid then ⟨500, "Internal Server Error", [], [cid]⟩
        else ⟨202, "", [(uid, activeMeta sub)], [cid]⟩

/-- The `subscription.revoked` branch (second source variant only). -/
def handleRevoked (env : WebhookEnv) (sub : SubscriptionData) : WebhookResult :=
  match sub.checkoutId with
  | none => ⟨202, "", [], []⟩
  | some cid =>
    if cid = "" then ⟨202, "", [], []⟩
    else if env.checkoutFails cid then ⟨500, "Internal Server Error", [], [cid]⟩
    else
      match lookOpt ((env.checkoutOf cid).customerMetadata) "clerk_user_id" with
      | none => ⟨202, "", [], [cid]⟩
      | some uid =>
        if uid = "" then ⟨202, "", [], [cid]⟩
        else if env.getUserFails uid then ⟨500, "Internal Server Error", [], [cid]⟩
        else
          let cur := (env.userMeta uid).getD []
          if env.updateFails uid then ⟨500, "Internal Server Error", [], [cid]⟩
          else ⟨202, "", [(uid, revokedMeta cur sub)], [cid]⟩

/-- The `POST /webhook` handler of `src/index.js` (second variant).  The
two event-type tests in the source are sequential `if`s on a single
string, hence mutually exclusive, embedded as an if/else-if chain. -/
def postWebhook (env : WebhookEnv) : WebhookResult :=
  match env.verified with
  | none => ⟨403, "", [], []⟩
  | some event =>
    if event.type = "subscription.active" then handleActive env event.data
    else if event.type = "subscription.revoked" then handleRevoked env event.data
    else ⟨202, "", [], []⟩

/-- The `POST /webhook` handler of `src/unnamed/part_000` (first variant):
same `subscription.active` branch, no `subscription.revoked` branch. -/
def postWebhookV1 (env : WebhookEnv) : WebhookResult :=
  match env.verified with
  | none => ⟨403, "", [], []⟩
  | some event =>
    if event.type = "subscription.active" then handleActive env event.data
    else ⟨202, "", [], []⟩

/-- Modelled from the spec: the Identity Provider metadata store, which
is external to `src/` (the code only calls `clerkClient.users.
updateUserMetadata`).  Per spec section 3, user metadata is "read and
overwritten wholesale": each recorded update replaces the stored
`publicMetadata` of its user. -/
def applyUpdates (store : String → Option Metadata) :
    List (String × Metadata) → (String → Option Metadata)
  | [] => store
  | (uid, m) :: rest =>
      applyUpdates (fun u => if u = uid then some m else store u) rest

/-- The Identity Provider store after the webhook handler ran. -/
def storeAfterWebhook (env : WebhookEnv) : String → Option Metadata :=
  applyUpdates env.userMeta (postWebhook env).updates

/-- Whether every provider call on the control path taken by one webhook
branch succeeds; mirrors the branch structure of
`handleActive` (`needsUser = false`) and `handleRevoked`
(`needsUser = true`). -/
def branchOk (env : WebhookEnv) (needsUser : Bool) (sub : SubscriptionData) : Bool :=
  match sub.checkoutId with
  | none => true
  | some cid =>
    if cid = "" then true
    else if env.checkoutFails cid then false
    else
      match lookOpt ((env.checkoutOf cid).customerMetadata) "clerk_user_id" with
      | none => true
      | some uid =>
        if uid = "" then true
        else if needsUser && env.getUserFails uid then false
        else !(env.updateFails uid)

/-- Whether every provider call on the control path actually taken by the
verified webhook handler succeeds. -/
def downstreamOk (env : WebhookEnv) : Bool :=
  match env.verified with
  | none => true
  | some event =>
    if event.type = "subscription.active" then branchOk env false event.data
    else if event.type = "subscription.revoked" then branchOk env true event.data
    else true

/-! ## Authenticated endpoints: auth probe and portal session -/

/-- The `GET /test-auth` handler: 401 when `getAuth` yields no truthy
userId, else 200 with the id. -/
def getTestAuth (auth : Option String) : Nat :=
  if jsTruthyS auth then 200 else 401

/-- Environment of one `GET /api/create-portal-session` request. -/
structure PortalEnv where
  auth : Option String
  getUserFails : String → Bool
  userMeta : String → Option Metadata
  sessionFails : String → Bool
  sessionUrlOf : String → String

/-- Observable outcome of one portal-session request: status, the Clerk
`getUser` calls, the Polar `customerSessions.create` calls (by customer
id), and the returned portal URL. -/
structure PortalResult where
  status : Nat
  clerkCalls : List String
  polarCalls : List String
  url : Option String
deriving DecidableEq

/-- The `GET /api/create-portal-session` handler. -/
def getPortalSession (env : PortalEnv) : PortalResult :=
  match env.auth with
  | none => ⟨401, [], [], none⟩
  | some uid =>
    if uid = "" then ⟨401, [], [], none⟩
    else if env.getUserFails uid then ⟨500, [uid], [], none⟩
    else
      match lookOpt (env.userMeta uid) "customerId" with
      | none => ⟨404, [uid], [], none⟩
      | some cust =>
        if cust = "" then ⟨404, [uid], [], none⟩
        else if env.sessionFails cust then ⟨500, [uid], [cust], none⟩
        else ⟨200, [uid], [cust], some (env.sessionUrlOf cust)⟩

/-! ## Checkout creator -/

/-- A JSON value as far as this code inspects one: a string or a
string-valued object (the shapes `customerMetadata` may take). -/
inductive JVal where
  | s (v : String)
  | o (m : Metadata)
deriving DecidableEq

/-- A JSON object body, keys to values. -/
abbrev JsObj := List (String × JVal)

/-- JavaScript truthiness of a `JVal`: every object (even `{}`) is truthy,
a string is truthy iff nonempty. -/
def jsTruthyV : JVal → Bool
  | .s v => !(v == "")
  | .o _ => true

/-- JavaScript truthiness of an optional `JVal`
(`undefined` is falsy). -/
def jsTruthyVOpt : Option JVal → Bool
  | none => false
  | some v => jsTruthyV v

/-- JavaScript `a || b` on an optional `JVal`. -/
def jsOrV (o : Option JVal) (d : JVal) : JVal :=
  match o with
  | none => d
  | some v => if jsTruthyV v then v else d

/-- JavaScript object spread of a `JVal`: spreading an object yields its
bindings; spreading a string yields its index-to-character bindings. -/
def spreadV : JVal → Metadata
  | .o m => m
  | .s v => (v.toList.enum).map (fun p => (toString p.1, p.2.toString))

/-- The base metadata selected by
`req.body.customerMetadata || req.body.customer_metadata || {}`. -/
def chooseMeta (b : JsObj) : JVal :=
  jsOrV (lookK b "customerMetadata") (jsOrV (lookK b "customer_metadata") (.o []))

/-- The `customerMetadata` object sent to Polar: the chosen caller
metadata spread, with `clerk_user_id` overridden by the caller identity. -/
def mergedMeta (b : JsObj) (uid : String) : Metadata :=
  objSet (spreadV (chooseMeta b)) "clerk_user_id" uid

/-- The fixed success-redirect URL built from `FRONTEND_URL`. -/
def successUrl (frontendUrl : String) : String :=
  frontendUrl ++ "/?payment=success&checkout_id=\x7bCHECKOUT_ID\x7d"

/-- The `checkoutOptions` object passed to `polar.checkouts.create`:
spread of the body, `successUrl` and `customerMetadata` overridden, then
`customer_metadata` deleted. -/
def buildOpts (b : JsObj) (uid : String) (frontendUrl : String) : JsObj :=
  delKey
    (objSet (objSet b "successUrl" (.s (successUrl frontendUrl)))
      "customerMetadata" (.o (mergedMeta b uid)))
    "customer_metadata"

/-- A Polar checkout session as returned by `polar.checkouts.create`. -/
structure Session where
  customerMetadata : Option Metadata
deriving DecidableEq

/-- How a `polar.checkouts.create` call can reject: an
`SDKValidationError` or any other error. -/
inductive CheckoutErr where
  | validation
  | other
deriving DecidableEq

/-- Environment of one `POST /create-checkout` request: parsed body
(`none` = missing), `getAuth` result, `FRONTEND_URL`, and the Polar
create oracle. -/
structure CheckoutEnv where
  body : Option JsObj
  auth : Option String
  frontendUrl : String
  create : JsObj → Except CheckoutErr Session

/-- Observable outcome of one `POST /create-checkout` request: status,
the session sent back to the caller (when any), and the options of each
`polar.checkouts.create` call made. -/
structure CheckoutResponse where
  status : Nat
  sentSession : Option Session
  polarCalls : List JsObj
deriving DecidableEq

/-- The `POST /create-checkout` handler.  Note the empty-body check
precedes the auth check in the source. -/
def postCreateCheckout (env : CheckoutEnv) : CheckoutResponse :=
  match env.body with
  | none => ⟨400, none, []⟩
  | some b =>
    if b.isEmpty then ⟨400, none, []⟩
    else
      match env.auth with
      | none => ⟨401, none, []⟩
      | some uid =>
        if uid = "" then ⟨401, none, []⟩
        else
          let opts := buildOpts b uid env.frontendUrl
          match env.create opts with
          | .error .validation => ⟨422, none, [opts]⟩
          | .error .other => ⟨500, none, [opts]⟩
          | .ok result =>
            if lookOpt result.customerMetadata "clerk_user_id" = some uid then
              ⟨200, some result, [opts]⟩
            else ⟨201, some result, [opts]⟩

/-! ## Product lister -/

/-- A Polar price object; each field may be absent, covering both
field-naming conventions for amount and currency. -/
structure Price where
  price_amount : Option Int
  priceAmount : Option Int
  price_currency : Option String
  priceCurrency : Option String
deriving DecidableEq

/-- A Polar benefit object (only `description` is read). -/
structure Benefit where
  description : String
deriving DecidableEq

/-- A Polar product as consumed by the reshaping loop. -/
structure Product where
  id : String
  name : String
  description : Option String
  prices : List Price
  benefits : Option (List Benefit)
deriving DecidableEq

/-- The reshaped product sent to the frontend. -/
structure FormattedProduct where
  id : String
  name : String
  description : String
  price : ℚ
  currency : String
  features : List String
  popular : Bool
deriving DecidableEq

/-- JavaScript `String.prototype.toUpperCase` (ASCII fragment),
character-wise over the string data. -/
def strToUpper (s : String) : String := String.mk (s.toList.map Char.toUpper)

/-- JavaScript `String.prototype.toLowerCase` (ASCII fragment),
character-wise over the string data. -/
def strToLower (s : String) : String := String.mk (s.toList.map Char.toLower)

/-- Whether `pat` occurs as a contiguous substring of `hay`
(JavaScript `String.prototype.includes`). -/
def listHasSub (pat : List Char) : List Char → Bool
  | [] => pat.isEmpty
  | c :: rest => pat.isPrefixOf (c :: rest) || listHasSub pat rest

/-- String form of `listHasSub`. -/
def strIncludes (hay pat : String) : Bool :=
  listHasSub pat.toList hay.toList

/-- JavaScript nullish coalescing `a ?? b` on optional values
(keeps falsy-but-present values such as `0`). -/
def jsNullish {α : Type} (o : Option α) (d : α) : α :=
  match o with
  | none => d
  | some v => v

/-- The body of the `GET /api/products` reshaping loop for one product:
first price (or null), amount via `?? 0` over both naming conventions
divided by 100, currency via `|| "usd"` then uppercased, benefit
descriptions flattened, popularity from a case-insensitive substring
test for "pro". -/
def formatProduct (item : Product) : FormattedProduct :=
  let priceData : Option Price := item.prices.head?
  let rawAmount : Int :=
    jsNullish ((priceData.bind Price.price_amount).orElse
      (fun _ => priceData.bind Price.priceAmount)) 0
  let price : ℚ := (rawAmount : ℚ) / 100
  let rawCurrency : String :=
    jsOrS (priceData.bind Price.price_currency)
      (jsOrS (priceData.bind Price.priceCurrency) "usd")
  let currency := strToUpper rawCurrency
  let features :=
    match item.benefits with
    | some bs => bs.map Benefit.description
    | none => []
  let isPopular := strIncludes (strToLower item.name) "pro"
  { id := item.id, name := item.name,
    description := jsOrS item.description "",
    price := price, currency := currency,
    features := features, popular := isPopular }

/-- The `GET /api/products` reshaping applied to the listed products. -/
def getProducts (items : List Product) : List FormattedProduct :=
  items.map formatProduct

/-! ## Concrete environments used to exercise the handlers -/

/-- A subscription payload with a checkout reference. -/
def subEx : SubscriptionData := ⟨"sub_1", "cus_1", some "co_1"⟩

/-- A webhook request whose signature verification fails. -/
def envVerifyFail : WebhookEnv :=
  ⟨none, fun _ => false, fun _ => ⟨none⟩, fun _ => false, fun _ => none,
   fun _ => false⟩

/-- Oracle data shared by the healthy webhook environments: the checkout
resolves to Clerk user `user_1`, who has prior metadata. -/
def priorMeta : Metadata := [("theme", "dark"), ("subscriptionId", "old_sub")]

/-- A verified `subscription.active` delivery where every provider call
succeeds. -/
def envActiveOk : WebhookEnv :=
  ⟨some ⟨"subscription.active", subEx⟩, fun _ => false,
   fun _ => ⟨some [("clerk_user_id", "user_1")]⟩, fun _ => false,
   fun _ => some priorMeta, fun _ => false⟩

/-- A verified `subscription.revoked` delivery where every provider call
succeeds. -/
def envRevokedOk : WebhookEnv :=
  ⟨some ⟨"subscription.revoked", subEx⟩, fun _ => false,
   fun _ => ⟨some [("clerk_user_id", "user_1")]⟩, fun _ => false,
   fun _ => some priorMeta, fun _ => false⟩

/-- A verified `subscription.active` delivery where the Polar checkout
lookup rejects. -/
def envCheckoutDown : WebhookEnv :=
  ⟨some ⟨"subscription.active", subEx⟩, fun _ => true, fun _ => ⟨none⟩,
   fun _ => false, fun _ => some priorMeta, fun _ => false⟩

/-- An unauthenticated portal-session request. -/
def peNoAuth : PortalEnv :=
  ⟨none, fun _ => false, fun _ => some priorMeta, fun _ => false, fun _ => ""⟩

/-- A nonempty checkout body carrying caller metadata under both naming
conventions. -/
def bodyEx : JsObj :=
  [("products", .s "prod_1"),
   ("customerMetadata", .o [("clerk_user_id", "spoofed"), ("tier", "gold")]),
   ("customer_metadata", .o [("tier", "silver")])]

/-- An unauthenticated `/create-checkout` request with a nonempty body. -/
def ceNoAuth : CheckoutEnv :=
  ⟨some bodyEx, none, "https://front.example", fun _ => .error .other⟩

/-- An unauthenticated `/create-checkout` request with an empty body. -/
def ceEmptyBody : CheckoutEnv :=
  ⟨some [], none, "https://front.example", fun _ => .error .other⟩

/-- An authenticated `/create-checkout` request whose provider echoes the
injected identity back. -/
def ceOk : CheckoutEnv :=
  ⟨some bodyEx, some "user_1", "https://front.example",
   fun _ => .ok ⟨some [("clerk_user_id", "user_1")]⟩⟩

/-- A price object with no amount and no currency under either naming
convention. -/
def priceBare : Price := ⟨none, none, none, none⟩

/-- A product whose only price is `priceBare`. -/
def productBare : Product :=
  ⟨"prod_1", "Pro Plan", some "desc", [priceBare], some [⟨"feature one"⟩]⟩

/-- A product priced at 250 minor units via the snake_case field. -/
def productPriced : Product :=
  ⟨"prod_2", "Basic", none, [⟨some 250, none, some "eur", none⟩], none⟩

/-! ## Lookup lemmas for the object operations -/

theorem lookK_delKey {α : Type} (m : List (String × α)) (k key : String) :
    lookK (delKey m k) key = if key = k then none else lookK m key := by
  induction m with
  | nil => simp [delKey, lookK]
  | cons p rest ih =>
    simp only [delKey] at ih
    by_cases hpk : p.1 = k
    · by_cases hk : key = k
      · subst hk
        simp [delKey, List.filter_cons, beq_iff_eq, lookK, hpk, ih]
      · simp [delKey, List.filter_cons, beq_iff_eq, lookK, hpk, hk, ih]
    · by_cases hk : key = p.1
      · subst hk
        simp [delKey, List.filter_cons, beq_iff_eq, lookK, hpk, ih]
      · simp [delKey, List.filter_cons, beq_iff_eq, lookK, hpk, hk, ih]

theorem lookK_objSet {α : Type} (m : List (String × α)) (k key : String) (v : α) :
    lookK (objSet m k v) key = if key = k then some v else lookK m key := by
  by_cases hk : key = k <;> simp [objSet, lookK, lookK_delKey, hk]

/-! ## Claim theorems -/

/-- C1: a `POST /webhook` request whose signature verification fails is
answered 403 with no metadata update and no payments-provider call,
whatever the declared event type or body content. -/
theorem webhook_invalid_signature_rejected (env : WebhookEnv)
    (h : env.verified = none) :
    postWebhook env = ⟨403, "", [], []⟩ := by
  simp [postWebhook, h]

theorem webhook_invalid_signature_rejected_witness :
    postWebhook envVerifyFail = ⟨403, "", [], []⟩ :=
  webhook_invalid_signature_rejected envVerifyFail rfl

/-- C2: a verified `subscription.active` event whose checkoutId resolves
to a checkout session carrying identity `uid` leaves `uid`'s stored
metadata equal to exactly
`{subscriptionId, customerId, plan: "pro", status: "active"}` built from
the event's subscription. -/
theorem webhook_active_overwrites_metadata (env : WebhookEnv)
    (ev : WebhookEvent) (cid uid : String)
    (hv : env.verified = some ev)
    (ht : ev.type = "subscription.active")
    (hc : ev.data.checkoutId = some cid) (hc0 : cid ≠ "")
    (hcf : env.checkoutFails cid = false)
    (hu : lookOpt (env.checkoutOf cid).customerMetadata "clerk_user_id" = some uid)
    (hu0 : uid ≠ "")
    (huf : env.updateFails uid = false) :
    storeAfterWebhook env uid =
      some [("subscriptionId", ev.data.id), ("customerId", ev.data.customerId),
            ("plan", "pro"), ("status", "active")] := by
  simp [storeAfterWebhook, postWebhook, hv, ht, handleActive, hc, hc0, hcf, hu,
        hu0, huf, applyUpdates, activeMeta]

theorem webhook_active_overwrites_metadata_witness :
    storeAfterWebhook envActiveOk "user_1" =
      some [("subscriptionId", "sub_1"), ("customerId", "cus_1"),
            ("plan", "pro"), ("status", "active")] :=
  webhook_active_overwrites_metadata envActiveOk ⟨"subscription.active", subEx⟩
    "co_1" "user_1" rfl rfl rfl (by decide) rfl rfl (by decide) rfl

/-- C3: a verified `subscription.revoked` event whose checkoutId resolves
to identity `uid` merges into `uid`'s existing metadata: subscriptionId
keeps its prior truthy value (else takes the event's), customerId is
overwritten, plan becomes "free", status "revoked", and every other
pre-existing key is preserved. -/
theorem webhook_revoked_merges_metadata (env : WebhookEnv)
    (ev : WebhookEvent) (cid uid : String) (cur : Metadata)
    (hv : env.verified = some ev)
    (ht : ev.type = "subscription.revoked")
    (hc : ev.data.checkoutId = some cid) (hc0 : cid ≠ "")
    (hcf : env.checkoutFails cid = false)
    (hu : lookOpt (env.checkoutOf cid).customerMetadata "clerk_user_id" = some uid)
    (hu0 : uid ≠ "")
    (hgf : env.getUserFails uid = false)
    (huf : env.updateFails uid = false)
    (hcur : (env.userMeta uid).getD [] = cur) :
    storeAfterWebhook env uid = some (revokedMeta cur ev.data) ∧
    lookK (revokedMeta cur ev.data) "customerId" = some ev.data.customerId ∧
    lookK (revokedMeta cur ev.data) "plan" = some "free" ∧
    lookK (revokedMeta cur ev.data) "status" = some "revoked" ∧
    (∀ s1, lookK cur "subscriptionId" = some s1 → s1 ≠ "" →
      lookK (revokedMeta cur ev.data) "subscriptionId" = some s1) ∧
    (jsTruthyS (lookK cur "subscriptionId") = false →
      lookK (revokedMeta cur ev.data) "subscriptionId" = some ev.data.id) ∧
    (∀ k, k ≠ "subscriptionId" → k ≠ "customerId" → k ≠ "plan" → k ≠ "status" →
      lookK (revokedMeta cur ev.data) k = lookK cur k) := by
  refine ⟨?_, ?_, ?_, ?_, ?_, ?_, ?_⟩
  · simp [storeAfterWebhook, postWebhook, hv, ht, handleRevoked, hc, hc0, hcf,
          hu, hu0, hgf, huf, hcur, applyUpdates]
  · simp [revokedMeta, lookK_objSet]
  · simp [revokedMeta, lookK_objSet]
  · simp [revokedMeta, lookK_objSet]
  · intro s1 hs1 hne
    simp [revokedMeta, lookK_objSet, hs1, jsOrS, hne]
  · intro h
    cases hls : lookK cur "subscriptionId" with
    | none => simp [revokedMeta, lookK_objSet, hls, jsOrS]
    | some s =>
      rw [hls] at h
      have hs : s = "" := by simpa [jsTruthyS] using h
      simp [revokedMeta, lookK_objSet, hls, jsOrS, hs]
  · intro k h1 h2 h3 h4
    simp [revokedMeta, lookK_objSet, h1, h2, h3, h4]

theorem webhook_revoked_merges_metadata_witness :
    storeAfterWebhook envRevokedOk "user_1" = some (revokedMeta priorMeta subEx) ∧
    lookK (revokedMeta priorMeta subEx) "subscriptionId" = some "old_sub" ∧
    lookK (revokedMeta priorMeta subEx) "plan" = some "free" ∧
    lookK (revokedMeta priorMeta subEx) "theme" = some "dark" := by
  have h := webhook_revoked_merges_metadata envRevokedOk
    ⟨"subscription.revoked", subEx⟩ "co_1" "user_1" priorMeta
    rfl rfl rfl (by decide) rfl rfl (by decide) rfl rfl rfl
  exact ⟨h.1, h.2.2.2.2.1 "old_sub" rfl (by decide), h.2.2.1,
    h.2.2.2.2.2.2 "theme" (by decide) (by decide) (by decide) (by decide)⟩

/-- Status of the `subscription.active` branch as a function of whether
its provider calls succeed. -/
theorem handleActive_status (env : WebhookEnv) (sub : SubscriptionData) :
    (handleActive env sub).status = if branchOk env false sub then 202 else 500 := by
  unfold handleActive branchOk
  cases sub.checkoutId with
  | none => rfl
  | some cid =>
    by_cases h1 : cid = ""
    · simp [h1]
    · by_cases h2 : env.checkoutFails cid
      · simp [h1, h2]
      · cases h3 : lookOpt (env.checkoutOf cid).customerMetadata "clerk_user_id" with
        | none => simp [h1, h2, h3]
        | some uid =>
          by_cases h4 : uid = ""
          · simp [h1, h2, h3, h4]
          · by_cases h5 : env.updateFails uid <;> simp [h1, h2, h3, h4, h5]

/-- Status of the `subscription.revoked` branch as a function of whether
its provider calls succeed. -/
theorem handleRevoked_status (env : WebhookEnv) (sub : SubscriptionData) :
    (handleRevoked env sub).status = if branchOk env true sub then 202 else 500 := by
  unfold handleRevoked branchOk
  cases sub.checkoutId with
  | none => rfl
  | some cid =>
    by_cases h1 : cid = ""
    · simp [h1]
    · by_cases h2 : env.checkoutFails cid
      · simp [h1, h2]
      · cases h3 : lookOpt (env.checkoutOf cid).customerMetadata "clerk_user_id" with
        | none => simp [h1, h2, h3]
        | some uid =>
          by_cases h4 : uid = ""
          · simp [h1, h2, h3, h4]
          · by_cases h5 : env.getUserFails uid <;>
              by_cases h6 : env.updateFails uid <;>
                simp [h1, h2, h3, h4, h5, h6]

/-- C4 counterexample: a verified `subscription.active` delivery whose
Polar checkout lookup rejects is answered 500, not the claimed 202 — the
handler's catch turns downstream failures into an error status instead
of swallowing them. -/
theorem webhook_downstream_failure_not_accepted :
    (postWebhook envCheckoutDown).status = 500 ∧
    (postWebhook envCheckoutDown).status ≠ 202 := by
  constructor
  · rfl
  · decide

/-- C4 (amended): once signature verification succeeds, the handler
responds 202 exactly when every downstream provider call on the taken
path succeeds; a downstream failure is caught and mapped to 500 instead
of being reflected as acceptance. -/
theorem webhook_status_matches_downstream (env : WebhookEnv)
    (ev : WebhookEvent) (hv : env.verified = some ev) :
    (postWebhook env).status = if downstreamOk env then 202 else 500 := by
  unfold postWebhook downstreamOk
  rw [hv]
  by_cases h1 : ev.type = "subscription.active"
  · simp [h1, handleActive_status]
  · by_cases h2 : ev.type = "subscription.revoked" <;>
      simp [h1, h2, handleRevoked_status]

theorem webhook_status_matches_downstream_witness :
    (postWebhook envActiveOk).status =
      if downstreamOk envActiveOk then 202 else 500 :=
  webhook_status_matches_downstream envActiveOk
    ⟨"subscription.active", subEx⟩ rfl

/-- C9: the two source variants of the webhook handler agree on every
verified event that is not `subscription.revoked` (in particular on
every `subscription.active` event, where they perform the same update
and response), and on a verified `subscription.revoked` event the first
variant acknowledges with 202 and performs no action. -/
theorem webhook_variants_agree (env : WebhookEnv) (ev : WebhookEvent)
    (hv : env.verified = some ev) :
    (ev.type = "subscription.active" → postWebhookV1 env = postWebhook env) ∧
    (ev.type ≠ "subscription.active" → ev.type ≠ "subscription.revoked" →
      postWebhookV1 env = postWebhook env ∧
      postWebhookV1 env = ⟨202, "", [], []⟩) ∧
    (ev.type = "subscription.revoked" →
      postWebhookV1 env = ⟨202, "", [], []⟩ ∧
      postWebhook env = handleRevoked env ev.data) := by
  refine ⟨?_, ?_, ?_⟩
  · intro h
    simp [postWebhookV1, postWebhook, hv, h]
  · intro h1 h2
    simp [postWebhookV1, postWebhook, hv, h1, h2]
  · intro h
    constructor
    · simp [postWebhookV1, hv, h]
    · simp [postWebhook, hv, h]

theorem webhook_variants_agree_witness :
    postWebhookV1 envActiveOk = postWebhook envActiveOk ∧
    postWebhookV1 envRevokedOk = ⟨202, "", [], []⟩ :=
  ⟨(webhook_variants_agree envActiveOk ⟨"subscription.active", subEx⟩ rfl).1 rfl,
   ((webhook_variants_agree envRevokedOk
      ⟨"subscription.revoked", subEx⟩ rfl).2.2 rfl).1⟩

/-- C5 counterexample: an unauthenticated `/create-checkout` request with
an empty body is answered 400, not the claimed 401 — the empty-body
check precedes the auth check. -/
theorem unauth_empty_body_checkout_not_401 :
    postCreateCheckout ceEmptyBody = ⟨400, none, []⟩ ∧
    (postCreateCheckout ceEmptyBody).status ≠ 401 := ⟨rfl, by decide⟩

/-- C5 (amended): every request to an authenticated endpoint without a
truthy caller identity is answered 401 with no provider call, except
that a `/create-checkout` request with a missing or empty body is
answered 400 by the earlier body check — still with no provider call. -/
theorem unauth_requests_rejected (a : Option String) (pe : PortalEnv)
    (ce : CheckoutEnv) (ha : jsTruthyS a = false) (hpa : pe.auth = a)
    (hca : ce.auth = a) :
    getTestAuth a = 401 ∧
    getPortalSession pe = ⟨401, [], [], none⟩ ∧
    (∀ b, ce.body = some b → b ≠ [] → postCreateCheckout ce = ⟨401, none, []⟩) ∧
    ((ce.body = none ∨ ce.body = some []) →
      postCreateCheckout ce = ⟨400, none, []⟩) := by
  have hshape : a = none ∨ a = some "" := by
    cases a with
    | none => exact Or.inl rfl
    | some s =>
      have hs : s = "" := by simpa [jsTruthyS] using ha
      exact Or.inr (by rw [hs])
  refine ⟨?_, ?_, ?_, ?_⟩
  · simp [getTestAuth, ha]
  · rcases hshape with h | h <;> simp [getPortalSession, hpa, h]
  · intro b hb hbne
    have hbe : b.isEmpty = false := by
      cases b with
      | nil => exact absurd rfl hbne
      | cons x xs => rfl
    rcases hshape with h | h <;> simp [postCreateCheckout, hb, hbe, hca, h]
  · intro h
    rcases h with h | h <;> simp [postCreateCheckout, h]

theorem unauth_requests_rejected_witness :
    getTestAuth none = 401 ∧
    getPortalSession peNoAuth = ⟨401, [], [], none⟩ ∧
    postCreateCheckout ceNoAuth = ⟨401, none, []⟩ := by
  have h := unauth_requests_rejected none peNoAuth ceNoAuth rfl rfl rfl
  exact ⟨h.1, h.2.1, h.2.2.1 bodyEx rfl (by decide)⟩

/-- C7: a `POST /create-checkout` request with a missing or empty body is
answered 400 and the Payments Provider is never called, whatever the
auth state. -/
theorem create_checkout_empty_body_rejected (ce : CheckoutEnv)
    (h : ce.body = none ∨ ce.body = some []) :
    postCreateCheckout ce = ⟨400, none, []⟩ := by
  rcases h with h | h <;> simp [postCreateCheckout, h]

theorem create_checkout_empty_body_rejected_witness :
    postCreateCheckout ceEmptyBody = ⟨400, none, []⟩ :=
  create_checkout_empty_body_rejected ceEmptyBody (Or.inr rfl)

/-- Evaluation of the authenticated, nonempty-body `/create-checkout`
path down to the provider call. -/
theorem postCreateCheckout_eval (ce : CheckoutEnv) (b : JsObj)
    (uid : String) (hb : ce.body = some b) (hbne : b ≠ [])
    (ha : ce.auth = some uid) (hu : uid ≠ "") :
    postCreateCheckout ce =
      (match ce.create (buildOpts b uid ce.frontendUrl) with
       | .error .validation => ⟨422, none, [buildOpts b uid ce.frontendUrl]⟩
       | .error .other => ⟨500, none, [buildOpts b uid ce.frontendUrl]⟩
       | .ok result =>
         if lookOpt result.customerMetadata "clerk_user_id" = some uid then
           ⟨200, some result, [buildOpts b uid ce.frontendUrl]⟩
         else ⟨201, some result, [buildOpts b uid ce.frontendUrl]⟩) := by
  have hbe : b.isEmpty = false := by
    cases b with
    | nil => exact absurd rfl hbne
    | cons x xs => rfl
  simp [postCreateCheckout, hb, hbe, ha, hu]

/-- The provider is called exactly once, with the built options, on the
authenticated nonempty-body path. -/
theorem postCreateCheckout_polarCalls (ce : CheckoutEnv) (b : JsObj)
    (uid : String) (hb : ce.body = some b) (hbne : b ≠ [])
    (ha : ce.auth = some uid) (hu : uid ≠ "") :
    (postCreateCheckout ce).polarCalls = [buildOpts b uid ce.frontendUrl] := by
  rw [postCreateCheckout_eval ce b uid hb hbne ha hu]
  cases hr : ce.create (buildOpts b uid ce.frontendUrl) with
  | error e => cases e <;> rfl
  | ok r =>
    by_cases hc : lookOpt r.customerMetadata "clerk_user_id" = some uid <;>
      simp [hc]

/-- C6: an authenticated `/create-checkout` request forwards options whose
`customerMetadata` carries the caller identity under `clerk_user_id`
(overriding any caller-supplied value), and on provider success returns
the session, with status 200 when the echoed identity matches and the
warning status 201 otherwise. -/
theorem create_checkout_injects_identity (ce : CheckoutEnv) (b : JsObj)
    (uid : String) (hb : ce.body = some b) (hbne : b ≠ [])
    (ha : ce.auth = some uid) (hu : uid ≠ "") :
    (postCreateCheckout ce).polarCalls = [buildOpts b uid ce.frontendUrl] ∧
    lookK (buildOpts b uid ce.frontendUrl) "customerMetadata" =
      some (.o (mergedMeta b uid)) ∧
    lookK (mergedMeta b uid) "clerk_user_id" = some uid ∧
    (∀ r, ce.create (buildOpts b uid ce.frontendUrl) = .ok r →
      (postCreateCheckout ce).sentSession = some r ∧
      (postCreateCheckout ce).status =
        if lookOpt r.customerMetadata "clerk_user_id" = some uid then 200
        else 201) := by
  refine ⟨postCreateCheckout_polarCalls ce b uid hb hbne ha hu, ?_, ?_, ?_⟩
  · simp [buildOpts, lookK_delKey, lookK_objSet]
  · simp [mergedMeta, lookK_objSet]
  · intro r hr
    rw [postCreateCheckout_eval ce b uid hb hbne ha hu, hr]
    by_cases hc : lookOpt r.customerMetadata "clerk_user_id" = some uid <;>
      simp [hc]

theorem create_checkout_injects_identity_witness :
    (postCreateCheckout ceOk).polarCalls =
      [buildOpts bodyEx "user_1" "https://front.example"] ∧
    lookK (mergedMeta bodyEx "user_1") "clerk_user_id" = some "user_1" ∧
    (postCreateCheckout ceOk).sentSession =
      some ⟨some [("clerk_user_id", "user_1")]⟩ ∧
    (postCreateCheckout ceOk).status = 200 := by
  have h := create_checkout_injects_identity ceOk bodyEx "user_1" rfl
    (by decide) rfl (by decide)
  have h4 := h.2.2.2 ⟨some [("clerk_user_id", "user_1")]⟩ rfl
  refine ⟨h.1, h.2.2.1, h4.1, ?_⟩
  rw [h4.2]
  decide

/-- C10: on the authenticated nonempty-body path, caller metadata under
either naming convention is merged into the forwarded
`customerMetadata` — the camelCase key taking precedence when present
and truthy — and the forwarded options carry no `customer_metadata`
key. -/
theorem create_checkout_merges_caller_metadata (ce : CheckoutEnv)
    (b : JsObj) (uid : String) (hb : ce.body = some b) (hbne : b ≠ [])
    (ha : ce.auth = some uid) (hu : uid ≠ "") :
    (postCreateCheckout ce).polarCalls = [buildOpts b uid ce.frontendUrl] ∧
    lookK (buildOpts b uid ce.frontendUrl) "customer_metadata" = none ∧
    lookK (buildOpts b uid ce.frontendUrl) "customerMetadata" =
      some (.o (mergedMeta b uid)) ∧
    lookK (mergedMeta b uid) "clerk_user_id" = some uid ∧
    (∀ m, lookK b "customerMetadata" = some (.o m) →
      ∀ k, k ≠ "clerk_user_id" → lookK (mergedMeta b uid) k = lookK m k) ∧
    (∀ m, jsTruthyVOpt (lookK b "customerMetadata") = false →
      lookK b "customer_metadata" = some (.o m) →
      ∀ k, k ≠ "clerk_user_id" → lookK (mergedMeta b uid) k = lookK m k) := by
  refine ⟨postCreateCheckout_polarCalls ce b uid hb hbne ha hu, ?_, ?_, ?_, ?_, ?_⟩
  · simp [buildOpts, lookK_delKey]
  · simp [buildOpts, lookK_delKey, lookK_objSet]
  · simp [mergedMeta, lookK_objSet]
  · intro m hm k hk
    simp [mergedMeta, lookK_objSet, hk, chooseMeta, hm, jsOrV, jsTruthyV, spreadV]
  · intro m hcam hm k hk
    cases hcv : lookK b "customerMetadata" with
    | none =>
      simp [mergedMeta, lookK_objSet, hk, chooseMeta, hcv, hm, jsOrV, jsTruthyV,
            spreadV]
    | some v =>
      rw [hcv] at hcam
      cases v with
      | s sv =>
        have hsv : sv = "" := by simpa [jsTruthyVOpt, jsTruthyV] using hcam
        simp [mergedMeta, lookK_objSet, hk, chooseMeta, hcv, hm, jsOrV,
              jsTruthyV, hsv, spreadV]
      | o om => simp [jsTruthyVOpt, jsTruthyV] at hcam

theorem create_checkout_merges_caller_metadata_witness :
    lookK (buildOpts bodyEx "user_1" "https://front.example")
      "customer_metadata" = none ∧
    lookK (mergedMeta bodyEx "user_1") "clerk_user_id" = some "user_1" ∧
    lookK (mergedMeta bodyEx "user_1") "tier" =
      lookK [("clerk_user_id", "spoofed"), ("tier", "gold")] "tier" := by
  have h := create_checkout_merges_caller_metadata ceOk bodyEx "user_1" rfl
    (by decide) rfl (by decide)
  exact ⟨h.2.1, h.2.2.2.1,
    h.2.2.2.2.1 [("clerk_user_id", "spoofed"), ("tier", "gold")] rfl "tier"
      (by decide)⟩

/-- C8: the product reshaping is total on price objects missing either
field-naming convention — the amount defaults to 0 and the currency to
"USD" — and a present minor-unit amount is divided by 100. -/
theorem products_price_tolerant (item : Product) (pd : Price)
    (hp : item.prices.head? = some pd) :
    (pd.price_amount = none → pd.priceAmount = none →
      (formatProduct item).price = 0) ∧
    (pd.price_currency = none → pd.priceCurrency = none →
      (formatProduct item).currency = "USD") ∧
    (∀ a, pd.price_amount = some a →
      (formatProduct item).price = (a : ℚ) / 100) := by
  refine ⟨?_, ?_, ?_⟩
  · intro h1 h2
    simp [formatProduct, hp, h1, h2, jsNullish, Option.orElse]
  · intro h1 h2
    simp [formatProduct, hp, h1, h2, jsOrS]
    decide
  · intro a h1
    simp [formatProduct, hp, h1, jsNullish, Option.orElse]

theorem products_price_tolerant_witness :
    (formatProduct productBare).price = 0 ∧
    (formatProduct productBare).currency = "USD" ∧
    (formatProduct productPriced).price = ((250 : Int) : ℚ) / 100 := by
  have h1 := products_price_tolerant productBare priceBare rfl
  have h2 := products_price_tolerant productPriced
    ⟨some 250, none, some "eur", none⟩ rfl
  exact ⟨h1.1 rfl rfl, h1.2.1 rfl rfl, h2.2.2 250 rfl⟩

end Xtractor
